import Mathlib

/-!
Shallow embedding of the CodeCraft AI-mentor panel (src/src/extension.ts).

The extension manages a singleton webview panel (`AIMentorPanel`), dispatches
inbound webview messages by their string `command` discriminator, translates
host diagnostics into an `explainError` payload, and schedules a mocked reply
through a 1000 ms timer.  Pure state is passed explicitly through a `World`
record; host side effects (revealing, constructing, disposing) are recorded as
`Event` values returned next to the new state.  Methods that the source makes
observable only through `webview.postMessage` append to `World.outbox`.
-/

/-- Zero-based position inside a document, mirroring `vscode.Position`
(`line` and `character` fields); only the start of a diagnostic range is read
by the source (lines 120, 122, 129-130). -/
structure Position where
  line : Nat
  character : Nat
deriving DecidableEq

/-- Diagnostic `code`, mirroring `vscode.Diagnostic.code : string | number |
undefined`; the absent case is `codeNone`. -/
inductive DiagCode where
  | codeStr (s : String)
  | codeNum (n : Int)
  | codeNone
deriving DecidableEq

/-- One host diagnostic as read by `explainCurrentError` (lines 118-122).
`severity` is carried along to make it observable that the source never
consults it. -/
structure Diagnostic where
  message : String
  range : Position
  code : DiagCode
  severity : Nat
deriving DecidableEq

/-- The active text document, as a list of line texts (`document.lineAt`). -/
structure TextDocument where
  lines : List String
deriving DecidableEq

/-- The active editor together with the host diagnostics for its document
(`vscode.languages.getDiagnostics(document.uri)` is folded into the record,
since the source always reads the diagnostics of `editor.document.uri`). -/
structure Editor where
  document : TextDocument
  diagnostics : List Diagnostic
deriving DecidableEq

/-- Mirror of `document.lineAt(n).text` (line 122).  The host guarantees that
diagnostic ranges lie inside the document; an out-of-range read is modelled
as the empty line. -/
def lineAt (doc : TextDocument) (n : Nat) : String :=
  doc.lines.getD n ""

/-- Structured values carried inside a posted message payload. -/
inductive JVal where
  | str (v : String)
  | num (v : Int)
  | bool (v : Bool)
  | nil
deriving DecidableEq

/-- Discriminates the payload values an `ErrorFinding.code` may take
(string, number, or null). -/
def JVal.isCodeLike : JVal → Bool
  | JVal.str _ => true
  | JVal.num _ => true
  | JVal.nil => true
  | JVal.bool _ => false

/-- Translation of the native diagnostic code into the posted payload value
(line 128); the absent native code is posted as null. -/
def jcode : DiagCode → JVal
  | DiagCode.codeStr s => JVal.str s
  | DiagCode.codeNum n => JVal.num n
  | DiagCode.codeNone => JVal.nil

/-- The chat message shape posted by the mock reply (lines 157-161). -/
structure ChatMessage where
  text : String
  isUser : Bool
  timestamp : String
deriving DecidableEq

/-- Outbound messages (Controller to Surface), keyed by the `command` field
the source writes in each `postMessage` call.  The `explainError` payload is
kept as an association list so that the exact field names of the object
literal at lines 126-132 stay observable. -/
inductive OutMessage where
  | receiveMessage (message : ChatMessage)
  | updateDiagnostics (hasErrors : Bool)
  | explainError (error : List (String × JVal))
  | showLearningJournal
deriving DecidableEq

/-- Field names of an `explainError` payload (and `[]` for any other
outbound message). -/
def errorKeys : OutMessage → List String
  | OutMessage.explainError fields => fields.map Prod.fst
  | _ => []

/-- Inbound messages (Surface to Controller).  The source dispatches on the
string field `message.command` (lines 87-103); fields absent from a posted
object are modelled as `""`. -/
structure WebviewMessage where
  command : String
  text : String
  mode : String
deriving DecidableEq

/-- One live `vscode.WebviewPanel` wrapped by an `AIMentorPanel` instance.
`disposables` mirrors `_disposables`, which receives the `onDidDispose`
registration (line 84) and then the `onDidReceiveMessage` registration
(lines 87-103); `disposed` records `panel.dispose()` (line 595). -/
structure Panel where
  id : Nat
  disposed : Bool
  disposables : List String
deriving DecidableEq

/-- A pending `setTimeout` scheduled by `_handleUserMessage` (lines 154-163):
it captures the user text and the panel whose webview the callback will post
to, and comes due 1000 ms after scheduling. -/
structure Timer where
  fireAt : Nat
  panel : Nat
  userText : String
deriving DecidableEq

/-- Host-visible effects of the lifecycle operations, in program order. -/
inductive Event where
  | constructedSurface (id : Nat)
  | revealed (id : Nat)
  | clearedCurrentPanel
  | disposedPanel
  | disposedSubscription (s : String)
deriving DecidableEq

/-- Wall-clock reading returned by the host `Date` (UTC components).  The
source only formats it via `toISOString` (line 160). -/
structure DateTime where
  year : Nat
  month : Nat
  day : Nat
  hour : Nat
  minute : Nat
  second : Nat
  millis : Nat
deriving DecidableEq

/-- Extension state: the static singleton reference `AIMentorPanel.currentPanel`
(by panel id), every constructed panel instance, the timer queue, the stream of
messages delivered to the webview, the clock in milliseconds, the information
messages shown by `_toggleMode`, and the listeners registered by `activate`. -/
structure World where
  currentPanel : Option Nat
  panels : List Panel
  nextId : Nat
  timers : List Timer
  outbox : List OutMessage
  now : Nat
  infoMessages : List String
  diagListenerLive : Bool
  contextSubscriptions : List String
deriving DecidableEq

/-- The extension state before `activate` runs. -/
def initWorld : World :=
  { currentPanel := none, panels := [], nextId := 0, timers := [], outbox := [],
    now := 0, infoMessages := [], diagListenerLive := false,
    contextSubscriptions := [] }

/-- The panel record built by the private constructor (lines 75-104): fresh id,
not disposed, and `_disposables` holding the `onDidDispose` and
`onDidReceiveMessage` registrations in push order.  The `_update` call (line
80) only sets html and title, which are not modelled. -/
def mkPanel (pid : Nat) : Panel :=
  { id := pid, disposed := false,
    disposables := ["onDidDispose", "onDidReceiveMessage"] }

/-- Mirror of `AIMentorPanel.createOrShow` (lines 51-73): when
`currentPanel` is set, reveal it and return; otherwise construct a new panel,
store it in the static field, and report the construction. -/
def createOrShow (w : World) : World × List Event :=
  match w.currentPanel with
  | some p => (w, [Event.revealed p])
  | none =>
      ({ w with currentPanel := some w.nextId,
                panels := w.panels ++ [mkPanel w.nextId],
                nextId := w.nextId + 1 },
       [Event.constructedSurface w.nextId])

/-- State component of `createOrShow`. -/
def createOrShowStep (w : World) : World :=
  (createOrShow w).1

/-- Whether the panel with the given id has been disposed; an id that was
never constructed counts as disposed (its webview does not exist). -/
def panelsDisposedIn (panels : List Panel) (p : Nat) : Bool :=
  match panels.find? (fun pan => pan.id == p) with
  | some pan => pan.disposed
  | none => true

/-- Whether the panel with the given id is disposed in this world. -/
def panelDisposed (w : World) (p : Nat) : Bool :=
  panelsDisposedIn w.panels p

/-- The `_disposables` list of the panel with the given id. -/
def panelDisposablesIn (panels : List Panel) (p : Nat) : List String :=
  match panels.find? (fun pan => pan.id == p) with
  | some pan => pan.disposables
  | none => []

/-- The `_disposables` list of the panel with the given id in this world. -/
def panelDisposables (w : World) (p : Nat) : List String :=
  panelDisposablesIn w.panels p

/-- Modelled from the spec: the Message Channel between Controller and
Surface.  `webview.postMessage` is host code, not part of src/; section 4.3
of the spec fixes its contract as ordered, at-most-once delivery where a send
on an already disposed Surface fails silently rather than raising. -/
def postMessage (p : Nat) (m : OutMessage) (w : World) : World :=
  if panelDisposed w p then w
  else { w with outbox := w.outbox ++ [m] }

/-- Per-panel effect of `dispose` on the heap: the disposed flag is set and
`_disposables` is emptied by the pop loop (lines 597-602). -/
def disposeMark (p : Nat) (pan : Panel) : Panel :=
  if pan.id = p then { pan with disposed := true, disposables := [] } else pan

/-- Mirror of `AIMentorPanel.dispose` (lines 591-603) for the instance with
id `p`, together with its host-visible effects in program order: line 592
clears the static `currentPanel` reference first, line 595 disposes the
webview panel, and the `while` loop then pops `_disposables` from the back,
so subscriptions are released in reverse registration order.  The method has
no throw site, so it is a total function. -/
def dispose (p : Nat) (w : World) : World × List Event :=
  ({ w with currentPanel := none, panels := w.panels.map (disposeMark p) },
   [Event.clearedCurrentPanel, Event.disposedPanel]
     ++ (panelDisposables w p).reverse.map Event.disposedSubscription)

/-- State component of `dispose`. -/
def disposeStep (p : Nat) (w : World) : World :=
  (dispose p w).1

/-- Mirror of `_handleUserMessage` (lines 151-164): schedule a 1000 ms
`setTimeout` that will post the mock reply; nothing is sent immediately. -/
def handleUserMessage (p : Nat) (w : World) (text : String) : World :=
  { w with timers := w.timers ++ [Timer.mk (w.now + 1000) p text] }

/-- Mirror of `_toggleMode` (lines 166-169): show an information message. -/
def toggleMode (w : World) (mode : String) : World :=
  { w with infoMessages := w.infoMessages ++ ["Switched to " ++ mode ++ " mode"] }

/-- Mirror of `_showLearningJournal` (lines 171-176): post one
`showLearningJournal` message to the webview. -/
def showLearningJournal (p : Nat) (w : World) : World :=
  postMessage p OutMessage.showLearningJournal w

/-- Mirror of the `onDidReceiveMessage` handler (lines 87-103) of panel `p`:
a switch on `message.command` with cases for `sendMessage`, `toggleMode` and
`openLearningJournal`; every other discriminator falls through and the
handler returns with no action. -/
def onDidReceiveMessage (p : Nat) (w : World) (message : WebviewMessage) : World :=
  if message.command = "sendMessage" then handleUserMessage p w message.text
  else if message.command = "toggleMode" then toggleMode w message.mode
  else if message.command = "openLearningJournal" then showLearningJournal p w
  else w

/-- The mock reply text built at line 158. -/
def replyText (text : String) : String :=
  "I understand you\x27re asking about \"" ++ text ++ "\". Let me help you with that..."

/-- Least significant decimal digit of `n`, as a character. -/
def digitChar9 (n : Nat) : Char :=
  Char.ofNat (48 + n % 10)

/-- Two-digit zero-padded decimal rendering used by UTC formatting. -/
def pad2 (n : Nat) : List Char :=
  [digitChar9 (n / 10), digitChar9 n]

/-- Three-digit zero-padded decimal rendering used by UTC formatting. -/
def pad3 (n : Nat) : List Char :=
  [digitChar9 (n / 100), digitChar9 (n / 10), digitChar9 n]

/-- Four-digit zero-padded decimal rendering used by UTC formatting. -/
def pad4 (n : Nat) : List Char :=
  [digitChar9 (n / 1000), digitChar9 (n / 100), digitChar9 (n / 10), digitChar9 n]

/-- Modelled from the spec: `new Date().toISOString()` (line 160) is a host
`Date` builtin, not part of src/; the spec requires the timestamp to be an
ISO-8601 string.  The builtin renders the UTC components fixed-width as
`YYYY-MM-DDTHH:MM:SS.mmmZ`, which is what this model produces. -/
def toISOString (d : DateTime) : String :=
  String.mk (pad4 d.year ++ ['-'] ++ pad2 d.month ++ ['-'] ++ pad2 d.day ++ ['T'] ++
    pad2 d.hour ++ [':'] ++ pad2 d.minute ++ [':'] ++ pad2 d.second ++ ['.'] ++
    pad3 d.millis ++ ['Z'])

/-- Whether a character is a decimal digit, by code point. -/
def isDigitChar (c : Char) : Bool :=
  48 ≤ c.toNat && c.toNat ≤ 57

/-- Recogniser for the ISO-8601 UTC timestamp layout
`YYYY-MM-DDTHH:MM:SS.mmmZ`. -/
def isISO8601 (s : String) : Bool :=
  match s.data with
  | [y1, y2, y3, y4, s1, mo1, mo2, s2, d1, d2, s3, h1, h2, s4, mi1, mi2, s5,
     se1, se2, s6, f1, f2, f3, s7] =>
      isDigitChar y1 && isDigitChar y2 && isDigitChar y3 && isDigitChar y4 &&
      (s1 == '-') && isDigitChar mo1 && isDigitChar mo2 && (s2 == '-') &&
      isDigitChar d1 && isDigitChar d2 && (s3 == 'T') &&
      isDigitChar h1 && isDigitChar h2 && (s4 == ':') &&
      isDigitChar mi1 && isDigitChar mi2 && (s5 == ':') &&
      isDigitChar se1 && isDigitChar se2 && (s6 == '.') &&
      isDigitChar f1 && isDigitChar f2 && isDigitChar f3 && (s7 == 'Z')
  | _ => false

/-- Firing one due `setTimeout` callback (lines 154-163): it reads the wall
clock `d` and posts the mock reply to the captured panel's webview; the post
goes through the channel, so it is silently dropped when that panel has been
disposed in the meantime. -/
def fireTimer (d : DateTime) (w : World) (tm : Timer) : World :=
  postMessage tm.panel
    (OutMessage.receiveMessage
      (ChatMessage.mk (replyText tm.userText) false (toISOString d))) w

/-- Event-loop progress: advance the clock by `dt` milliseconds and run every
timer that has come due, in scheduling order, reading the wall clock `d`. -/
def elapse (dt : Nat) (d : DateTime) (w : World) : World :=
  List.foldl (fireTimer d)
    { w with now := w.now + dt,
             timers := w.timers.filter (fun tm => !(decide (tm.fireAt ≤ w.now + dt))) }
    (w.timers.filter (fun tm => decide (tm.fireAt ≤ w.now + dt)))

/-- Mirror of `explainCurrentError` (lines 110-136) as the optional message
the method posts: nothing when there is no active editor or the document has
no diagnostics; otherwise the payload built from `diagnostics[0]`, with the
native zero-based line and character each incremented by one and the object
literal's exact field names. -/
def explainCurrentError (activeTextEditor : Option Editor) : Option OutMessage :=
  match activeTextEditor with
  | none => none
  | some editor =>
      match editor.diagnostics with
      | [] => none
      | error :: _ =>
          some (OutMessage.explainError
            [("message", JVal.str error.message),
             ("code", jcode error.code),
             ("line", JVal.num (Int.ofNat error.range.line + 1)),
             ("column", JVal.num (Int.ofNat error.range.character + 1)),
             ("text", JVal.str (lineAt editor.document error.range.line))])

/-- Mirror of `activate` (lines 3-39): the two commands are pushed onto
`context.subscriptions` (line 26) and the `onDidChangeDiagnostics` listener is
registered (line 34).  The `Disposable` returned at line 34 is discarded: it
is added neither to `context.subscriptions` nor to any panel's
`_disposables`.  The reveal of a pre-existing panel (lines 29-31) changes no
modelled state. -/
def activate (w : World) : World :=
  { w with contextSubscriptions :=
             w.contextSubscriptions ++ ["codecraft.openAIMentor", "codecraft.explainError"],
           diagListenerLive := true }

/-- Webview-side state kept by the inline script (lines 424-585): active tab,
response mode, rendered chat entries as (text, isUser) pairs, and visibility
of the error-explainer affordance.  Render timestamps are not modelled. -/
structure SurfaceState where
  activeTab : String
  responseMode : String
  uiMessages : List (String × Bool)
  errorExplainerHidden : Bool
deriving DecidableEq

/-- Mirror of the script's `addMessageToUI` (lines 464-487). -/
def addMessageToUI (s : SurfaceState) (text : String) (isUser : Bool) : SurfaceState :=
  { s with uiMessages := s.uiMessages ++ [(text, isUser)] }

/-- Rendering of a payload value inside template strings, as the script's
string interpolation would show it. -/
def jvalText : Option JVal → String
  | some (JVal.str v) => v
  | some (JVal.num v) => toString v
  | some (JVal.bool v) => if v then "true" else "false"
  | some JVal.nil => "null"
  | none => "undefined"

/-- The synthesized explanation text built at line 571. -/
def errorText (fields : List (String × JVal)) : String :=
  "I noticed an error in your code: \"" ++ jvalText (fields.lookup "message")
    ++ "\" at line " ++ jvalText (fields.lookup "line")
    ++ ", column " ++ jvalText (fields.lookup "column")
    ++ ". Let me explain what\x27s happening..."

/-- Mirror of the script's `window` message listener (lines 553-584): each
outbound command updates the webview DOM state; none of the four cases calls
`vscode.postMessage`, so the returned list of messages sent back to the
Controller is empty in every case. -/
def surfaceHandleMessage (s : SurfaceState) (m : OutMessage) :
    SurfaceState × List WebviewMessage :=
  match m with
  | OutMessage.receiveMessage msg => (addMessageToUI s msg.text msg.isUser, [])
  | OutMessage.updateDiagnostics hasErrors =>
      ({ s with errorExplainerHidden := !hasErrors }, [])
  | OutMessage.explainError fields => (addMessageToUI s (errorText fields) false, [])
  | OutMessage.showLearningJournal => ({ s with activeTab := "journal" }, [])

/-- Mirror of a tab-button click (lines 506-529): the tab becomes active, and
only the user-initiated switch to the journal notifies the Controller. -/
def tabClick (s : SurfaceState) (tab : String) : SurfaceState × List WebviewMessage :=
  ({ s with activeTab := tab },
   if tab = "journal" then [WebviewMessage.mk "openLearningJournal" "" ""] else [])

/-- Mirror of the Explain This Error button's click listener (lines 499-503):
one click posts exactly one message whose command is `explainError`. -/
def explainErrorBtnClick : List WebviewMessage :=
  [WebviewMessage.mk "explainError" "" ""]

/-! ### Helper lemmas -/

theorem digit_lt_isDigitChar : ∀ m : Nat, m < 10 → isDigitChar (Char.ofNat (48 + m)) = true := by
  decide

theorem isDigitChar_digitChar9 (n : Nat) : isDigitChar (digitChar9 n) = true :=
  digit_lt_isDigitChar (n % 10) (Nat.mod_lt n (by decide))

theorem isISO8601_toISOString (d : DateTime) : isISO8601 (toISOString d) = true := by
  simp [toISOString, isISO8601, pad4, pad3, pad2, isDigitChar_digitChar9]

theorem createOrShow_of_some (s : World) (q : Nat) (h : s.currentPanel = some q) :
    createOrShow s = (s, [Event.revealed q]) := by
  simp [createOrShow, h]

theorem createOrShowStep_of_some (s : World) (q : Nat) (h : s.currentPanel = some q) :
    createOrShowStep s = s := by
  simp [createOrShowStep, createOrShow_of_some s q h]

theorem disposeMark_idem (p : Nat) (pan : Panel) :
    disposeMark p (disposeMark p pan) = disposeMark p pan := by
  by_cases h : pan.id = p <;> simp [disposeMark, h]

theorem find?_map_disposeMark (l : List Panel) (p : Nat) :
    (l.map (disposeMark p)).find? (fun pan => pan.id == p)
      = (l.find? (fun pan => pan.id == p)).map
          (fun pan => { pan with disposed := true, disposables := [] }) := by
  induction l with
  | nil => rfl
  | cons a l ih =>
    by_cases h : a.id = p
    · simp [disposeMark, List.find?_cons, h]
    · simp [disposeMark, List.find?_cons, h, ih]

theorem panelsDisposedIn_map_disposeMark (l : List Panel) (p : Nat) :
    panelsDisposedIn (l.map (disposeMark p)) p = true := by
  unfold panelsDisposedIn
  rw [find?_map_disposeMark]
  cases l.find? (fun pan => pan.id == p) <;> rfl

theorem panelDisposablesIn_map_disposeMark (l : List Panel) (p : Nat) :
    panelDisposablesIn (l.map (disposeMark p)) p = [] := by
  unfold panelDisposablesIn
  rw [find?_map_disposeMark]
  cases l.find? (fun pan => pan.id == p) <;> rfl

theorem panelDisposed_disposeStep (p : Nat) (w : World) :
    panelDisposed (disposeStep p w) p = true := by
  simp [panelDisposed, disposeStep, dispose, panelsDisposedIn_map_disposeMark]

theorem disposeStep_fix (p : Nat) (w : World) :
    disposeStep p (disposeStep p w) = disposeStep p w := by
  simp [disposeStep, dispose, List.map_map, Function.comp_def, disposeMark_idem]

/-! ### Claim theorems -/

/-- C1: For every sequence of one or more `createOrShow` calls starting with no
panel, exactly one PanelInstance exists afterwards (`currentPanel` holds the
panel constructed by the first call, and exactly one Surface was constructed),
the instance identity is unchanged across the repeated calls, and a call made
while a panel exists (any state `s` with `currentPanel = some q`) reveals the
existing panel and returns without constructing a new Surface. -/
theorem createOrShow_singleton (w : World) (n : Nat) (s : World) (q : Nat)
    (hn : 1 ≤ n) (h0 : w.currentPanel = none) (hq : s.currentPanel = some q) :
    (createOrShowStep^[n] w).currentPanel = some w.nextId
    ∧ createOrShowStep^[n] w = createOrShowStep w
    ∧ (createOrShowStep^[n] w).panels = w.panels ++ [mkPanel w.nextId]
    ∧ createOrShow s = (s, [Event.revealed q]) := by
  obtain ⟨m, rfl⟩ : ∃ m, n = m + 1 := ⟨n - 1, by omega⟩
  have h1 : createOrShowStep w
      = { w with currentPanel := some w.nextId,
                 panels := w.panels ++ [mkPanel w.nextId],
                 nextId := w.nextId + 1 } := by
    simp [createOrShowStep, createOrShow, h0]
  have hfix : createOrShowStep (createOrShowStep w) = createOrShowStep w :=
    createOrShowStep_of_some _ w.nextId (by rw [h1])
  have hiter : createOrShowStep^[m + 1] w = createOrShowStep w := by
    rw [Function.iterate_succ_apply]
    exact Function.iterate_fixed hfix m
  refine ⟨?_, hiter, ?_, createOrShow_of_some s q hq⟩
  · rw [hiter, h1]
  · rw [hiter, h1]

theorem createOrShow_singleton_witness :
    1 ≤ 3 ∧ initWorld.currentPanel = none
    ∧ (createOrShowStep initWorld).currentPanel = some 0
    ∧ ((createOrShowStep^[3] initWorld).currentPanel = some initWorld.nextId
       ∧ createOrShowStep^[3] initWorld = createOrShowStep initWorld
       ∧ (createOrShowStep^[3] initWorld).panels = initWorld.panels ++ [mkPanel initWorld.nextId]
       ∧ createOrShow (createOrShowStep initWorld)
           = (createOrShowStep initWorld, [Event.revealed 0])) :=
  ⟨by decide, rfl, rfl,
   createOrShow_singleton initWorld 3 (createOrShowStep initWorld) 0 (by decide) rfl rfl⟩

/-- C2: Calling `dispose` N ≥ 1 times yields the same final state as calling
it once, namely `currentPanel = none`; the method is a total function (it has
no throw site), so no call can raise; and each call emits
`clearedCurrentPanel` (the release of the singleton reference at line 592)
strictly before every `disposedSubscription` effect (the pop loop over
`_disposables` at lines 597-602). -/
theorem dispose_idempotent (w : World) (p : Nat) (n : Nat) (hn : 1 ≤ n) :
    ((disposeStep p)^[n] w).currentPanel = none
    ∧ (disposeStep p)^[n] w = disposeStep p w
    ∧ ((dispose p w).2)[0]? = some Event.clearedCurrentPanel
    ∧ (∀ (i : Nat) (sub : String),
        ((dispose p w).2)[i]? = some (Event.disposedSubscription sub) → 0 < i) := by
  obtain ⟨m, rfl⟩ : ∃ m, n = m + 1 := ⟨n - 1, by omega⟩
  have hiter : (disposeStep p)^[m + 1] w = disposeStep p w := by
    rw [Function.iterate_succ_apply]
    exact Function.iterate_fixed (disposeStep_fix p w) m
  refine ⟨?_, hiter, rfl, ?_⟩
  · rw [hiter]; rfl
  · intro i sub h
    cases i with
    | zero => simp [dispose] at h
    | succ i => omega

theorem dispose_idempotent_witness :
    1 ≤ 2
    ∧ (((disposeStep 0)^[2] (createOrShowStep initWorld)).currentPanel = none
       ∧ (disposeStep 0)^[2] (createOrShowStep initWorld)
           = disposeStep 0 (createOrShowStep initWorld)
       ∧ ((dispose 0 (createOrShowStep initWorld)).2)[0]? = some Event.clearedCurrentPanel
       ∧ (∀ (i : Nat) (sub : String),
           ((dispose 0 (createOrShowStep initWorld)).2)[i]?
             = some (Event.disposedSubscription sub) → 0 < i)) :=
  ⟨by decide, dispose_idempotent (createOrShowStep initWorld) 0 2 (by decide)⟩

/-- C10: The Explain This Error button posts exactly one inbound message,
whose command is `explainError`; the Controller's dispatch has no case for
that discriminator, so processing every message generated by a click falls
into the ignored-unknown-discriminator path and leaves the extension state
(outbox included) unchanged. -/
theorem explainError_button_ignored (w : World) (p : Nat) :
    List.foldl (onDidReceiveMessage p) w explainErrorBtnClick = w
    ∧ (List.foldl (onDidReceiveMessage p) w explainErrorBtnClick).outbox = w.outbox := by
  have h : onDidReceiveMessage p w (WebviewMessage.mk "explainError" "" "") = w := by
    simp [onDidReceiveMessage]
  refine ⟨?_, ?_⟩ <;> simp [explainErrorBtnClick, List.foldl, h]

/-- C3: An inbound message with command `sendMessage` and text `t`, received
while the panel is live and no other timer is pending, causes the Controller
to send — once the configured 1000 ms delay has elapsed, and not before —
exactly one outbound `receiveMessage` whose `message.text` contains `t`
verbatim, whose `message.isUser` is `false`, and whose `message.timestamp`
is an ISO-8601 string. -/
theorem sendMessage_echo (w : World) (p : Nat) (t : String) (dt : Nat) (d : DateTime)
    (hlive : panelDisposed w p = false) (hidle : w.timers = []) (hdt : 1000 ≤ dt) :
    (elapse dt d (onDidReceiveMessage p w (WebviewMessage.mk "sendMessage" t ""))).outbox
        = w.outbox
          ++ [OutMessage.receiveMessage (ChatMessage.mk (replyText t) false (toISOString d))]
    ∧ (∀ dt2 : Nat, dt2 < 1000 →
        (elapse dt2 d (onDidReceiveMessage p w (WebviewMessage.mk "sendMessage" t ""))).outbox
          = w.outbox)
    ∧ (∃ l r : List Char, (replyText t).data = l ++ t.data ++ r)
    ∧ isISO8601 (toISOString d) = true := by
  have hdisp : onDidReceiveMessage p w (WebviewMessage.mk "sendMessage" t "")
      = { w with timers := w.timers ++ [Timer.mk (w.now + 1000) p t] } := by
    simp [onDidReceiveMessage, handleUserMessage]
  refine ⟨?_, ?_, ?_, isISO8601_toISOString d⟩
  · have hc : w.now + 1000 ≤ w.now + dt := Nat.add_le_add_left hdt w.now
    have hlive2 : panelsDisposedIn w.panels p = false := hlive
    simp [hdisp, elapse, hidle, hc, fireTimer, postMessage, panelDisposed, hlive2]
  · intro dt2 hdt2
    have hc2 : ¬ (w.now + 1000 ≤ w.now + dt2) := by omega
    simp [hdisp, elapse, hidle, hc2]
  · exact ⟨("I understand you\x27re asking about \"").data,
           ("\". Let me help you with that...").data, by simp [replyText]⟩

theorem sendMessage_echo_witness :
    panelDisposed (createOrShowStep initWorld) 0 = false
    ∧ (createOrShowStep initWorld).timers = []
    ∧ 1000 ≤ 1000
    ∧ ((elapse 1000 (DateTime.mk 2026 10 12 9 30 0 0)
          (onDidReceiveMessage 0 (createOrShowStep initWorld)
            (WebviewMessage.mk "sendMessage" "what is a closure" ""))).outbox
          = (createOrShowStep initWorld).outbox
            ++ [OutMessage.receiveMessage
                  (ChatMessage.mk (replyText "what is a closure") false
                    (toISOString (DateTime.mk 2026 10 12 9 30 0 0)))]
       ∧ (∀ dt2 : Nat, dt2 < 1000 →
            (elapse dt2 (DateTime.mk 2026 10 12 9 30 0 0)
              (onDidReceiveMessage 0 (createOrShowStep initWorld)
                (WebviewMessage.mk "sendMessage" "what is a closure" ""))).outbox
              = (createOrShowStep initWorld).outbox)
       ∧ (∃ l r : List Char,
            (replyText "what is a closure").data = l ++ "what is a closure".data ++ r)
       ∧ isISO8601 (toISOString (DateTime.mk 2026 10 12 9 30 0 0)) = true) :=
  ⟨by decide, rfl, by decide,
   sendMessage_echo (createOrShowStep initWorld) 0 "what is a closure" 1000
     (DateTime.mk 2026 10 12 9 30 0 0) (by decide) rfl (by decide)⟩

/-- C4: If the panel is disposed while the mock reply is pending, the pending
timer is not cancelled, yet its eventual delivery attempt is swallowed: the
outbox stays unchanged when the timer fires after disposal, and since the
callback is a total function no exception escapes it; in general every send
on a disposed panel is a silent no-op. -/
theorem disposed_reply_swallowed (w : World) (p : Nat) (t : String) (dt : Nat) (d : DateTime)
    (hidle : w.timers = []) (hdt : 1000 ≤ dt) :
    (disposeStep p (onDidReceiveMessage p w (WebviewMessage.mk "sendMessage" t ""))).timers
        = (onDidReceiveMessage p w (WebviewMessage.mk "sendMessage" t "")).timers
    ∧ (elapse dt d
        (disposeStep p (onDidReceiveMessage p w (WebviewMessage.mk "sendMessage" t "")))).outbox
        = w.outbox
    ∧ (∀ (w2 : World) (m2 : OutMessage),
        panelDisposed w2 p = true → postMessage p m2 w2 = w2) := by
  have hdisp : onDidReceiveMessage p w (WebviewMessage.mk "sendMessage" t "")
      = { w with timers := w.timers ++ [Timer.mk (w.now + 1000) p t] } := by
    simp [onDidReceiveMessage, handleUserMessage]
  refine ⟨by simp [disposeStep, dispose], ?_, ?_⟩
  · have hc : w.now + 1000 ≤ w.now + dt := Nat.add_le_add_left hdt w.now
    have hgone : panelsDisposedIn (w.panels.map (disposeMark p)) p = true :=
      panelsDisposedIn_map_disposeMark w.panels p
    simp [hdisp, disposeStep, dispose, elapse, hidle, hc, fireTimer, postMessage,
      panelDisposed, hgone]
  · intro w2 m2 h2
    simp [postMessage, h2]

theorem disposed_reply_swallowed_witness :
    (createOrShowStep initWorld).timers = []
    ∧ 1000 ≤ 1500
    ∧ ((disposeStep 0 (onDidReceiveMessage 0 (createOrShowStep initWorld)
          (WebviewMessage.mk "sendMessage" "hi" ""))).timers
          = (onDidReceiveMessage 0 (createOrShowStep initWorld)
              (WebviewMessage.mk "sendMessage" "hi" "")).timers
       ∧ (elapse 1500 (DateTime.mk 2026 1 1 0 0 0 0)
            (disposeStep 0 (onDidReceiveMessage 0 (createOrShowStep initWorld)
              (WebviewMessage.mk "sendMessage" "hi" "")))).outbox
            = (createOrShowStep initWorld).outbox
       ∧ (∀ (w2 : World) (m2 : OutMessage),
            panelDisposed w2 0 = true → postMessage 0 m2 w2 = w2)) :=
  ⟨rfl, by decide,
   disposed_reply_swallowed (createOrShowStep initWorld) 0 "hi" 1500
     (DateTime.mk 2026 1 1 0 0 0 0) rfl (by decide)⟩

/-- C5: For a host finding with a native 0-based range, `explainCurrentError`
produces a payload whose `line` and `column` are each the native value plus
one; the first finding of the list is used unconditionally — regardless of
the remaining findings and of every severity, the result is the same as if
the first finding were the only one. -/
theorem explainCurrentError_one_based (ed : Editor) (err : Diagnostic)
    (rest : List Diagnostic) (h : ed.diagnostics = err :: rest) :
    explainCurrentError (some ed)
      = some (OutMessage.explainError
          [("message", JVal.str err.message),
           ("code", jcode err.code),
           ("line", JVal.num (Int.ofNat err.range.line + 1)),
           ("column", JVal.num (Int.ofNat err.range.character + 1)),
           ("text", JVal.str (lineAt ed.document err.range.line))])
    ∧ explainCurrentError (some ed)
        = explainCurrentError (some { ed with diagnostics := [err] }) := by
  constructor <;> simp [explainCurrentError, h]

theorem explainCurrentError_one_based_witness :
    explainCurrentError (some (Editor.mk (TextDocument.mk ["a", "b", "c", "d", "const x = oops"])
        [Diagnostic.mk "Cannot find name" (Position.mk 4 9) (DiagCode.codeNum 2304) 0]))
      = some (OutMessage.explainError
          [("message", JVal.str "Cannot find name"),
           ("code", JVal.num 2304),
           ("line", JVal.num 5),
           ("column", JVal.num 10),
           ("text", JVal.str "const x = oops")]) := by
  have h := explainCurrentError_one_based
    (Editor.mk (TextDocument.mk ["a", "b", "c", "d", "const x = oops"])
      [Diagnostic.mk "Cannot find name" (Position.mk 4 9) (DiagCode.codeNum 2304) 0])
    (Diagnostic.mk "Cannot find name" (Position.mk 4 9) (DiagCode.codeNum 2304) 0) [] rfl
  exact h.1.trans (by decide)

/-- C6 (counterexample): At a concrete finding, the `explainError` payload's
field names are `message`, `code`, `line`, `column`, `text` — there is no
field named `sourceText`, so the payload does not consist of the claimed
field set ending in `sourceText`. -/
theorem explainError_payload_sourceText_cex :
    Option.map errorKeys (explainCurrentError (some (Editor.mk (TextDocument.mk ["const x = 1"])
        [Diagnostic.mk "msg" (Position.mk 0 0) DiagCode.codeNone 1])))
      = some ["message", "code", "line", "column", "text"]
    ∧ ¬ (Option.map errorKeys (explainCurrentError (some (Editor.mk (TextDocument.mk ["const x = 1"])
        [Diagnostic.mk "msg" (Position.mk 0 0) DiagCode.codeNone 1])))
          = some ["message", "code", "line", "column", "sourceText"])
    ∧ ¬ ("sourceText" ∈ ["message", "code", "line", "column", "text"]) := by
  decide

/-- C6 (amended): The error payload of every outbound `explainError` message
has exactly the fields `message` (a string), `code` (string, number, or
null), `line` (the native line plus one), `column` (the native character plus
one), and `text` (a string holding the source line's text); the source names
the source-line field `text`, not `sourceText`. -/
theorem explainError_payload_fields (ed : Editor) (err : Diagnostic)
    (rest : List Diagnostic) (h : ed.diagnostics = err :: rest) :
    ∃ fields, explainCurrentError (some ed) = some (OutMessage.explainError fields)
      ∧ fields.map Prod.fst = ["message", "code", "line", "column", "text"]
      ∧ fields.lookup "message" = some (JVal.str err.message)
      ∧ fields.lookup "code" = some (jcode err.code)
      ∧ JVal.isCodeLike (jcode err.code) = true
      ∧ fields.lookup "line" = some (JVal.num (Int.ofNat err.range.line + 1))
      ∧ fields.lookup "column" = some (JVal.num (Int.ofNat err.range.character + 1))
      ∧ fields.lookup "text" = some (JVal.str (lineAt ed.document err.range.line)) := by
  refine ⟨[("message", JVal.str err.message), ("code", jcode err.code),
           ("line", JVal.num (Int.ofNat err.range.line + 1)),
           ("column", JVal.num (Int.ofNat err.range.character + 1)),
           ("text", JVal.str (lineAt ed.document err.range.line))],
          by simp [explainCurrentError, h], rfl, rfl, rfl, ?_, rfl, rfl, rfl⟩
  cases hc : err.code <;> simp [jcode, JVal.isCodeLike]

theorem explainError_payload_fields_witness :
    ∃ fields, explainCurrentError (some (Editor.mk (TextDocument.mk ["let a", "let b", "const z"])
        [Diagnostic.mk "Unexpected token" (Position.mk 2 4) (DiagCode.codeStr "1109") 2]))
        = some (OutMessage.explainError fields)
      ∧ fields.map Prod.fst = ["message", "code", "line", "column", "text"]
      ∧ fields.lookup "message" = some (JVal.str "Unexpected token")
      ∧ fields.lookup "code" = some (JVal.str "1109")
      ∧ JVal.isCodeLike (JVal.str "1109") = true
      ∧ fields.lookup "line" = some (JVal.num 3)
      ∧ fields.lookup "column" = some (JVal.num 5)
      ∧ fields.lookup "text" = some (JVal.str "const z") :=
  explainError_payload_fields
    (Editor.mk (TextDocument.mk ["let a", "let b", "const z"])
      [Diagnostic.mk "Unexpected token" (Position.mk 2 4) (DiagCode.codeStr "1109") 2])
    (Diagnostic.mk "Unexpected token" (Position.mk 2 4) (DiagCode.codeStr "1109") 2) [] rfl

/-- C7: Invoking `explainCurrentError` with no active editor, or with an
active document that has zero findings, produces zero outbound messages;
both cases are silent no-ops of a total function, so no error is raised. -/
theorem explainCurrentError_noop (ed : Editor) (h : ed.diagnostics = []) :
    explainCurrentError none = none ∧ explainCurrentError (some ed) = none :=
  ⟨rfl, by simp [explainCurrentError, h]⟩

theorem explainCurrentError_noop_witness :
    (Editor.mk (TextDocument.mk ["x"]) []).diagnostics = []
    ∧ (explainCurrentError none = none
       ∧ explainCurrentError (some (Editor.mk (TextDocument.mk ["x"]) [])) = none) :=
  ⟨rfl, explainCurrentError_noop (Editor.mk (TextDocument.mk ["x"]) []) rfl⟩

/-- C8: An inbound `openLearningJournal` message received by a live panel
makes the Controller send exactly one outbound `showLearningJournal`
message, and the Surface's handler for `showLearningJournal` switches the
tab to the journal without posting any message back to the Controller — no
echo loop. -/
theorem openLearningJournal_roundtrip (w : World) (p : Nat) (s : SurfaceState)
    (hlive : panelDisposed w p = false) :
    (onDidReceiveMessage p w (WebviewMessage.mk "openLearningJournal" "" "")).outbox
        = w.outbox ++ [OutMessage.showLearningJournal]
    ∧ (surfaceHandleMessage s OutMessage.showLearningJournal).2 = []
    ∧ (surfaceHandleMessage s OutMessage.showLearningJournal).1.activeTab = "journal" := by
  have hlive2 : panelsDisposedIn w.panels p = false := hlive
  refine ⟨?_, rfl, rfl⟩
  simp [onDidReceiveMessage, showLearningJournal, postMessage, panelDisposed, hlive2]

theorem openLearningJournal_roundtrip_witness :
    panelDisposed (createOrShowStep initWorld) 0 = false
    ∧ ((onDidReceiveMessage 0 (createOrShowStep initWorld)
          (WebviewMessage.mk "openLearningJournal" "" "")).outbox
          = (createOrShowStep initWorld).outbox ++ [OutMessage.showLearningJournal]
       ∧ (surfaceHandleMessage (SurfaceState.mk "chat" "text" [] true)
            OutMessage.showLearningJournal).2 = []
       ∧ (surfaceHandleMessage (SurfaceState.mk "chat" "text" [] true)
            OutMessage.showLearningJournal).1.activeTab = "journal") :=
  ⟨by decide,
   openLearningJournal_roundtrip (createOrShowStep initWorld) 0
     (SurfaceState.mk "chat" "text" [] true) (by decide)⟩

/-- C9 (counterexample): After `activate`, `createOrShow`, and `dispose` of
the created panel, the `onDidChangeDiagnostics` listener registered inside
`activate` (line 34) is still live: its `Disposable` was discarded at
registration, so panel disposal cannot release it — a registered listener
remains live after disposal. -/
theorem dispose_diag_listener_cex :
    (disposeStep 0 (createOrShowStep (activate initWorld))).diagListenerLive = true
    ∧ panelDisposed (disposeStep 0 (createOrShowStep (activate initWorld))) 0 = true
    ∧ (disposeStep 0 (createOrShowStep (activate initWorld))).currentPanel = none := by
  decide

/-- C9 (amended): On destruction the controller synchronously releases every
subscription the panel itself registered in `_disposables` — the
`onDidDispose` and `onDidReceiveMessage` handlers, drained within the same
call in reverse registration order — but the diagnostics-change handler is
registered by `activate`, not when the panel is set up; it is held by no
disposables list, and it remains live after the panel is disposed. -/
theorem dispose_releases_panel_subscriptions (w w0 : World) (p : Nat)
    (h0 : w0.currentPanel = none) :
    panelDisposables (disposeStep p w) p = []
    ∧ (dispose p w).2
        = [Event.clearedCurrentPanel, Event.disposedPanel]
          ++ (panelDisposables w p).reverse.map Event.disposedSubscription
    ∧ (disposeStep p w).diagListenerLive = w.diagListenerLive
    ∧ (createOrShowStep w0).panels = w0.panels ++ [mkPanel w0.nextId]
    ∧ (mkPanel w0.nextId).disposables = ["onDidDispose", "onDidReceiveMessage"]
    ∧ (activate w).diagListenerLive = true := by
  refine ⟨?_, rfl, rfl, ?_, rfl, rfl⟩
  · simp [panelDisposables, disposeStep, dispose, panelDisposablesIn_map_disposeMark]
  · simp [createOrShowStep, createOrShow, h0]

theorem dispose_releases_panel_subscriptions_witness :
    initWorld.currentPanel = none
    ∧ (panelDisposables (disposeStep 0 (createOrShowStep (activate initWorld))) 0 = []
       ∧ (dispose 0 (createOrShowStep (activate initWorld))).2
           = [Event.clearedCurrentPanel, Event.disposedPanel]
             ++ (panelDisposables (createOrShowStep (activate initWorld)) 0).reverse.map
                  Event.disposedSubscription
       ∧ (disposeStep 0 (createOrShowStep (activate initWorld))).diagListenerLive
           = (createOrShowStep (activate initWorld)).diagListenerLive
       ∧ (createOrShowStep initWorld).panels = initWorld.panels ++ [mkPanel initWorld.nextId]
       ∧ (mkPanel initWorld.nextId).disposables = ["onDidDispose", "onDidReceiveMessage"]
       ∧ (activate (createOrShowStep (activate initWorld))).diagListenerLive = true) :=
  ⟨rfl,
   dispose_releases_panel_subscriptions (createOrShowStep (activate initWorld)) initWorld 0 rfl⟩
